import Mathlib

/-!
Verification development for the mcp-biconomy-backend relay.

The repository contains two server variants sharing one MCP client module:
* `src/server.js` — the Anthropic-provider variant;
* `src/unnamed/part_002` — the OpenAI-provider variant (with auth/chat CRUD);
* `src/mcpClient.js` / `src/unnamed/part_001` — the `MCPClientManager`
  (identical logic, different default endpoint URL);
* `src/unnamed/part_000` — the chat database module (supabase-backed).

We shallowly embed the JavaScript values and the handler logic.  External
collaborators (the model provider, the remote MCP tool service, JSON.parse /
JSON.stringify, the supabase row store) are modelled as explicit oracles or
as pure state, per their documented behaviour.
-/

/-- A JavaScript value as it flows through the handlers.  `undefined` models the
JavaScript `undefined` (absent object fields, `JSON.stringify(undefined)`). -/
inductive JsVal where
  | undefined
  | null
  | bool (b : Bool)
  | num (n : Int)
  | str (s : String)
  | arr (elems : List JsVal)
  | obj (fields : List (String × JsVal))
deriving Inhabited

/-- JavaScript truthiness of a value (`!v` in the source is `!truthy v`). -/
def truthy : JsVal → Bool
  | .undefined => false
  | .null => false
  | .bool b => b
  | .num n => n != 0
  | .str s => s != ""
  | .arr _ => true
  | .obj _ => true

/-- `Array.isArray`. -/
def isArray : JsVal → Bool
  | .arr _ => true
  | _ => false

/-- The element list of an array value (only used after `Array.isArray`). -/
def asArray : JsVal → List JsVal
  | .arr xs => xs
  | _ => []

/-- Property access `v.key`: `undefined` on a non-object or a missing key. -/
def getField : JsVal → String → JsVal
  | .obj fields, key =>
    match fields.find? (fun p => p.1 == key) with
    | some p => p.2
    | none => .undefined
  | _, _ => .undefined

/-- A tool descriptor as cached by the MCP client
(`{name, description, inputSchema}`). -/
structure ToolDesc where
  name : String
  description : String
  inputSchema : JsVal
deriving Inhabited

/-- The `MCPClientManager` observable state: `this.isConnected` and
`this.tools` (the underlying transport handle carries no further state that
the handlers read). -/
structure MCPState where
  isConnected : Bool
  tools : List ToolDesc
deriving Inhabited

/-- The constructor state: `isConnected = false`, `tools = []`. -/
def MCPState.start : MCPState := { isConnected := false, tools := [] }

/-- Environment oracle for one `initialize()` call: whether
`client.connect(transport)` resolves, and — if it does — the outcome of
`client.listTools()` (`some ts` on success, `none` if it throws). -/
structure ConnectEnv where
  connectOk : Bool
  listToolsResult : Option (List ToolDesc)
deriving Inhabited

/-- An `initialize()` call succeeds when the connect resolves and the tool
list is fetched. -/
def connSuccess (e : ConnectEnv) : Bool :=
  e.connectOk && e.listToolsResult.isSome

/-- `MCPClientManager.initialize()` (mcpClient.js lines 11-50): on success
sets `isConnected := true` and caches the fetched tools, returning `true`;
any thrown error reaches the catch block, which sets `isConnected := false`
(leaving `tools` untouched) and returns `false` — it never rethrows. -/
def MCPState.initClient (s : MCPState) (env : ConnectEnv) : MCPState × Bool :=
  if env.connectOk then
    match env.listToolsResult with
    | some ts => ({ isConnected := true, tools := ts }, true)
    | none => ({ s with isConnected := false }, false)
  else ({ s with isConnected := false }, false)

/-- A sequence of `initialize()` calls run from a starting state. -/
def runInits : MCPState → List ConnectEnv → MCPState
  | s, [] => s
  | s, e :: es => runInits (s.initClient e).1 es

/-- `MCPClientManager.getTools()`. -/
def MCPState.getTools (s : MCPState) : List ToolDesc := s.tools

/-- `MCPClientManager.isReady()`. -/
def MCPState.isReady (s : MCPState) : Bool := s.isConnected

/-- `MCPClientManager.callTool(name, args)` (mcpClient.js lines 52-68):
throws `'MCP client not connected'` when not connected, without touching the
remote service; otherwise forwards the call and returns the remote outcome
unmodified (the catch block rethrows the same error).  `remote` is the
oracle for the remote call's outcome; the second component records whether
the remote service was contacted. -/
def MCPState.callTool (s : MCPState) (remote : Except String JsVal) :
    Except String JsVal × Bool :=
  if s.isConnected then (remote, true)
  else (Except.error "MCP client not connected", false)

/-! ## Shared helpers for the chat handlers -/

/-- Message cleaning (`messages.map(msg => ({role: msg.role, content:
msg.content}))`, server.js lines 56-59 / part_002 lines 329-332). -/
def cleanMsg (m : JsVal) : JsVal :=
  .obj [("role", getField m "role"), ("content", getField m "content")]

/-- A tool-call request as the relay sees it once the provider message is
decoded: call identifier, tool name and structured arguments. -/
structure CallReq where
  id : String
  name : String
  input : JsVal
deriving Inhabited

/-- `JSON.stringify` is modelled abstractly by a function
`stringify : JsVal → Option String`; a `none` outcome is the JavaScript
`undefined` result (e.g. on input `undefined`). -/
def stringifyVal (stringify : JsVal → Option String) (v : JsVal) : JsVal :=
  match stringify v with
  | some s => .str s
  | none => .undefined

/-- The `content` of a rendered tool result
(`tr.error ? Error: ... : JSON.stringify(tr.result)`; both continuation
handlers use this same expression).  Note the JavaScript truthiness test:
an empty-string `error` falls through to the serialisation branch. -/
def renderToolContent (stringify : JsVal → Option String)
    (error : Option String) (result : Option JsVal) : JsVal :=
  match error with
  | some e => if e != "" then .str ("Error: " ++ e)
              else stringifyVal stringify (result.getD .undefined)
  | none => stringifyVal stringify (result.getD .undefined)

/-- `mapFrom f k [a, b, ...] = [f k a, f (k+1) b, ...]` — an index-carrying
map used to state what the tool-execution loops produce. -/
def mapFrom (f : Nat → α → β) : Nat → List α → List β
  | _, [] => []
  | k, a :: l => f k a :: mapFrom f (k + 1) l

theorem length_mapFrom (f : Nat → α → β) : ∀ (k : Nat) (l : List α),
    (mapFrom f k l).length = l.length := by
  intro k l
  induction l generalizing k with
  | nil => rfl
  | cons a l ih => simp [mapFrom, ih]

theorem getElem?_mapFrom (f : Nat → α → β) : ∀ (k : Nat) (l : List α) (i : Nat),
    (mapFrom f k l)[i]? = (l[i]?).map (f (k + i)) := by
  intro k l
  induction l generalizing k with
  | nil => intro i; simp [mapFrom]
  | cons a l ih =>
    intro i
    cases i with
    | zero => simp [mapFrom]
    | succ j =>
      simp only [mapFrom, List.getElem?_cons_succ, ih (k + 1) j]
      have h : k + 1 + j = k + (j + 1) := by omega
      rw [h]

/-! ## The Anthropic-provider variant (src/server.js) -/

/-- A content block of an Anthropic model response: either text or a
`tool_use` block carrying `{id, name, input}`. -/
inductive ContentBlock where
  | text (t : String)
  | toolUse (id : String) (name : String) (input : JsVal)
deriving Inhabited

/-- An Anthropic model response as the handler reads it: its `stop_reason`
and its content block list. -/
structure AnthropicResponse where
  stop_reason : String
  content : List ContentBlock
deriving Inhabited

/-- A tool declaration in the Claude API format
(`{name, description, input_schema}`). -/
structure ClaudeTool where
  name : String
  description : String
  input_schema : JsVal
deriving Inhabited

/-- The descriptor-to-Claude transform (server.js lines 63-67). -/
def toClaudeTool (t : ToolDesc) : ClaudeTool :=
  { name := t.name, description := t.description, input_schema := t.inputSchema }

/-- One entry of the `toolResults` array built by the Anthropic chat
handler: `{tool_use_id, name, input}` plus either `result` or `error`. -/
structure AnthropicToolResult where
  tool_use_id : String
  name : String
  input : JsVal
  result : Option JsVal
  error : Option String
deriving Inhabited

/-- The entry pushed for one tool-use block, given the outcome of
`mcpClient.callTool` (server.js lines 87-105): a `result` field on success,
an `error` field (the thrown message) on failure. -/
def mkAnthropicEntry (c : CallReq) (outcome : Except String JsVal) :
    AnthropicToolResult :=
  match outcome with
  | .ok r => { tool_use_id := c.id, name := c.name, input := c.input,
               result := some r, error := none }
  | .error e => { tool_use_id := c.id, name := c.name, input := c.input,
                  result := none, error := some e }

/-- The tool-use blocks of a response content list, in emitted order. -/
def toolUseOf : ContentBlock → Option CallReq
  | .toolUse id name input => some { id := id, name := name, input := input }
  | .text _ => none

/-- The tool-call requests of an Anthropic turn. -/
def anthropicCalls (blocks : List ContentBlock) : List CallReq :=
  blocks.filterMap toolUseOf

/-- The tool execution loop of the Anthropic chat handler (server.js lines
83-107): iterate the content blocks, and for each `tool_use` block call
`mcpClient.callTool`; a thrown error is caught per-block and recorded as an
`error` entry, and the loop continues.  `exec k` is the remote outcome of
the k-th execution; the second component records the `(name, input)` calls
that actually reached the remote service, in order. -/
def anthropicToolLoop (mcp : MCPState) (exec : Nat → Except String JsVal) :
    List ContentBlock → Nat → List AnthropicToolResult × List (String × JsVal)
  | [], _ => ([], [])
  | .text _ :: rest, k => anthropicToolLoop mcp exec rest k
  | .toolUse id name input :: rest, k =>
    let call := mcp.callTool (exec k)
    let tail := anthropicToolLoop mcp exec rest (k + 1)
    (mkAnthropicEntry { id := id, name := name, input := input } call.1 :: tail.1,
     (if call.2 then [(name, input)] else []) ++ tail.2)

/-- The observable outcome of one Anthropic chat request: the HTTP status
and JSON body fields actually set, plus the effects we track — whether the
model provider was contacted, what conversation and tool declarations were
submitted to it, which tool executions reached the remote service, and how
many lazy reconnect attempts were made (this handler makes none). -/
structure AnthropicChatOut where
  status : Nat
  error : Option String
  response : Option AnthropicResponse
  toolResults : Option (List AnthropicToolResult)
  needsToolResponse : Option Bool
  modelCalled : Bool
  submitted : Option (List JsVal)
  submittedTools : Option (List ClaudeTool)
  toolExecs : List (String × JsVal)
  reconnectAttempts : Nat
deriving Inhabited

/-- An error response of the Anthropic chat handler (`res.status(...).json({
error })`). -/
def anthropicFail (status : Nat) (msg : String) : AnthropicChatOut :=
  { status := status, error := some msg, response := none, toolResults := none,
    needsToolResponse := none, modelCalled := false, submitted := none,
    submittedTools := none, toolExecs := [], reconnectAttempts := 0 }

/-- The `POST /api/chat` handler of the Anthropic variant (server.js lines
41-126).  `messages` is the request body's `messages` field (`undefined` when
absent); `modelResult` is the oracle for `anthropic.messages.create`
(`error` when the provider call throws); `exec` is the remote tool
execution oracle.  A provider error reaches the outer catch → 500. -/
def anthropicChat (mcp : MCPState) (messages : JsVal)
    (modelResult : Except String AnthropicResponse)
    (exec : Nat → Except String JsVal) : AnthropicChatOut :=
  if !truthy messages || !isArray messages then
    anthropicFail 400 "Messages array is required"
  else if !mcp.isReady then
    anthropicFail 503 "MCP client not connected"
  else
    let cleaned := (asArray messages).map cleanMsg
    let claudeTools := mcp.getTools.map toClaudeTool
    match modelResult with
    | .error e =>
      { anthropicFail 500 e with
        modelCalled := true
        submitted := some cleaned
        submittedTools := some claudeTools }
    | .ok resp =>
      if resp.stop_reason = "tool_use" then
        let run := anthropicToolLoop mcp exec resp.content 0
        { status := 200, error := none, response := some resp,
          toolResults := some run.1, needsToolResponse := some true,
          modelCalled := true, submitted := some cleaned,
          submittedTools := some claudeTools, toolExecs := run.2,
          reconnectAttempts := 0 }
      else
        { status := 200, error := none, response := some resp,
          toolResults := none, needsToolResponse := some false,
          modelCalled := true, submitted := some cleaned,
          submittedTools := some claudeTools, toolExecs := [],
          reconnectAttempts := 0 }

/-- The observable outcome of one Anthropic continuation request. -/
structure ContinueOut where
  status : Nat
  error : Option String
  responseA : Option AnthropicResponse
  needsToolResponse : Option Bool
  modelCalled : Bool
  submitted : Option (List JsVal)
  submittedTools : Option (List ClaudeTool)
  reconnectAttempts : Nat
deriving Inhabited

/-- The assistant tool-request message rebuilt by the Anthropic continuation
handler (`{role: 'assistant', content: assistantResponse.content}`,
server.js lines 152-155). -/
def anthropicAssistantMsg (assistantResponse : JsVal) : JsVal :=
  .obj [("role", .str "assistant"), ("content", getField assistantResponse "content")]

/-- One `tool_result` content block (server.js lines 140-144). -/
def anthropicToolResultBlock (stringify : JsVal → Option String)
    (tr : AnthropicToolResult) : JsVal :=
  .obj [("type", .str "tool_result"), ("tool_use_id", .str tr.tool_use_id),
        ("content", renderToolContent stringify tr.error tr.result)]

/-- The user message carrying the tool results (server.js lines 156-159). -/
def anthropicToolResultMsg (stringify : JsVal → Option String)
    (toolResults : List AnthropicToolResult) : JsVal :=
  .obj [("role", .str "user"),
        ("content", .arr (toolResults.map (anthropicToolResultBlock stringify)))]

/-- The `POST /api/chat/continue` handler of the Anthropic variant
(server.js lines 129-186): cleans the prior messages, rebuilds the
assistant tool-request message and a user message holding the rendered tool
results, and submits `[...cleaned, assistant, user]` to the provider.  It
performs no readiness check and no input validation. -/
def anthropicContinue (mcp : MCPState) (messages : List JsVal)
    (toolResults : List AnthropicToolResult) (assistantResponse : JsVal)
    (stringify : JsVal → Option String)
    (modelResult : Except String AnthropicResponse) : ContinueOut :=
  let cleaned := messages.map cleanMsg
  let updated := cleaned ++
    [anthropicAssistantMsg assistantResponse,
     anthropicToolResultMsg stringify toolResults]
  let claudeTools := mcp.getTools.map toClaudeTool
  match modelResult with
  | .error e =>
    { status := 500, error := some e, responseA := none,
      needsToolResponse := none, modelCalled := true,
      submitted := some updated, submittedTools := some claudeTools,
      reconnectAttempts := 0 }
  | .ok resp =>
    { status := 200, error := none, responseA := some resp,
      needsToolResponse := some (resp.stop_reason = "tool_use"),
      modelCalled := true, submitted := some updated,
      submittedTools := some claudeTools, reconnectAttempts := 0 }

/-! ## The OpenAI-provider variant (src/unnamed/part_002) -/

/-- The `function` field of an OpenAI tool call:
`{name, arguments}` where `arguments` is a JSON-encoded string. -/
structure OAFunction where
  name : String
  arguments : String
deriving Inhabited

/-- One entry of `message.tool_calls`. -/
structure OAToolCall where
  id : String
  function : OAFunction
deriving Inhabited

/-- An OpenAI chat-completion message as the handler reads it
(`response.choices[0].message`). -/
structure OAMessage where
  role : String
  content : JsVal
  tool_calls : Option (List OAToolCall)
deriving Inhabited

/-- The nested function declaration of an OpenAI tool
(`{name, description, parameters}`). -/
structure OAToolDecl where
  name : String
  description : String
  parameters : JsVal
deriving Inhabited

/-- A tool declaration in the OpenAI format (`{type: 'function', function:
{...}}`, part_002 lines 336-343). -/
structure OATool where
  type : String
  function : OAToolDecl
deriving Inhabited

/-- The descriptor-to-OpenAI transform. -/
def toOATool (t : ToolDesc) : OATool :=
  { type := "function",
    function := { name := t.name, description := t.description,
                  parameters := t.inputSchema } }

/-- One entry of the `toolResults` array built by the OpenAI chat handler:
`{tool_call_id, name, arguments}` plus either `result` or `error`. -/
structure OAToolResult where
  tool_call_id : String
  name : String
  arguments : JsVal
  result : Option JsVal
  error : Option String
deriving Inhabited

/-- The entry pushed for one tool call given its parsed arguments and the
outcome of `mcpClient.callTool` (part_002 lines 363-382).  On failure the
catch block re-parses the arguments string; since the string parsed in the
try block, the re-parse yields the same value. -/
def mkOAEntry (c : OAToolCall) (args : JsVal) (outcome : Except String JsVal) :
    OAToolResult :=
  match outcome with
  | .ok r => { tool_call_id := c.id, name := c.function.name, arguments := args,
               result := some r, error := none }
  | .error e => { tool_call_id := c.id, name := c.function.name,
                  arguments := args, result := none, error := some e }

/-- The parsed arguments of a call under a given `JSON.parse` model
(`undefined` placeholder when the string does not parse; only meaningful when
it does). -/
def parsedArgs (parse : String → Except String JsVal) (c : OAToolCall) : JsVal :=
  match parse c.function.arguments with
  | .ok a => a
  | .error _ => .undefined

/-- The tool execution loop of the OpenAI chat handler (part_002 lines
358-383).  For each call the try block parses the arguments string and
invokes `mcpClient.callTool`; the per-call catch block records the error —
but it evaluates `JSON.parse(toolCall.function.arguments)` again, so when
the original throw was the parse itself, the catch rethrows and the
exception escapes the loop (first component `.error`).  The second
component records the `(name, args)` executions that reached the remote
service before the loop ended. -/
def oaToolLoop (mcp : MCPState) (parse : String → Except String JsVal)
    (exec : Nat → Except String JsVal) :
    List OAToolCall → Nat → Except String (List OAToolResult) × List (String × JsVal)
  | [], _ => (Except.ok [], [])
  | c :: rest, k =>
    match parse c.function.arguments with
    | .error pe => (Except.error pe, [])
    | .ok args =>
      let call := mcp.callTool (exec k)
      let tail := oaToolLoop mcp parse exec rest (k + 1)
      (tail.1.map (fun l => mkOAEntry c args call.1 :: l),
       (if call.2 then [(c.function.name, args)] else []) ++ tail.2)

/-- The observable outcome of one OpenAI chat request, with the same
tracked effects as the Anthropic variant plus the reconnect attempt count
of the lazy `initialize()` retry. -/
structure OAChatOut where
  status : Nat
  error : Option String
  response : Option OAMessage
  toolResults : Option (List OAToolResult)
  needsToolResponse : Option Bool
  modelCalled : Bool
  submitted : Option (List JsVal)
  submittedTools : Option (List OATool)
  toolExecs : List (String × JsVal)
  reconnectAttempts : Nat
deriving Inhabited

/-- An error response of the OpenAI chat handler. -/
def oaFail (status : Nat) (msg : String) (reconnects : Nat) : OAChatOut :=
  { status := status, error := some msg, response := none, toolResults := none,
    needsToolResponse := none, modelCalled := false, submitted := none,
    submittedTools := none, toolExecs := [], reconnectAttempts := reconnects }

/-- The post-readiness body of the OpenAI `POST /api/chat` handler
(part_002 lines 326-401), run against the (possibly freshly reconnected)
client state. -/
def openaiChatReady (mcp : MCPState) (reconnects : Nat) (messages : JsVal)
    (modelResult : Except String OAMessage)
    (parse : String → Except String JsVal)
    (exec : Nat → Except String JsVal) : OAChatOut :=
  let cleaned := (asArray messages).map cleanMsg
  let oaTools := mcp.getTools.map toOATool
  match modelResult with
  | .error e =>
    { oaFail 500 e reconnects with
      modelCalled := true
      submitted := some cleaned
      submittedTools := some oaTools }
  | .ok msg =>
    match msg.tool_calls with
    | some calls =>
      if calls.length > 0 then
        let run := oaToolLoop mcp parse exec calls 0
        match run.1 with
        | .ok entries =>
          { status := 200, error := none, response := some msg,
            toolResults := some entries, needsToolResponse := some true,
            modelCalled := true, submitted := some cleaned,
            submittedTools := some oaTools, toolExecs := run.2,
            reconnectAttempts := reconnects }
        | .error e =>
          { oaFail 500 e reconnects with
            modelCalled := true
            submitted := some cleaned
            submittedTools := some oaTools
            toolExecs := run.2 }
      else
        { status := 200, error := none, response := some msg,
          toolResults := none, needsToolResponse := some false,
          modelCalled := true, submitted := some cleaned,
          submittedTools := some oaTools, toolExecs := [],
          reconnectAttempts := reconnects }
    | none =>
      { status := 200, error := none, response := some msg,
        toolResults := none, needsToolResponse := some false,
        modelCalled := true, submitted := some cleaned,
        submittedTools := some oaTools, toolExecs := [],
        reconnectAttempts := reconnects }

/-- The `POST /api/chat` handler of the OpenAI variant (part_002 lines
309-402): validates the `messages` field, then — if the client is not
ready — makes exactly one lazy `initialize()` attempt (oracle `initEnv`),
failing the whole request with 503 if it fails, and otherwise proceeds
against the reconnected state. -/
def openaiChat (mcp : MCPState) (initEnv : ConnectEnv) (messages : JsVal)
    (modelResult : Except String OAMessage)
    (parse : String → Except String JsVal)
    (exec : Nat → Except String JsVal) : OAChatOut :=
  if !truthy messages || !isArray messages then
    oaFail 400 "Messages array is required" 0
  else if mcp.isReady then
    openaiChatReady mcp 0 messages modelResult parse exec
  else
    let attempt := mcp.initClient initEnv
    if attempt.2 then openaiChatReady attempt.1 1 messages modelResult parse exec
    else oaFail 503 "MCP client failed to connect" 1

/-- The observable outcome of one OpenAI continuation request. -/
structure OAContinueOut where
  status : Nat
  error : Option String
  response : Option OAMessage
  needsToolResponse : Option Bool
  modelCalled : Bool
  submitted : Option (List JsVal)
  submittedTools : Option (List OATool)
  reconnectAttempts : Nat
deriving Inhabited

/-- One tool-result message of the OpenAI continuation handler
(`{role: 'tool', tool_call_id, content}`, part_002 lines 425-429). -/
def oaToolResultMsg (stringify : JsVal → Option String) (tr : OAToolResult) :
    JsVal :=
  .obj [("role", .str "tool"), ("tool_call_id", .str tr.tool_call_id),
        ("content", renderToolContent stringify tr.error tr.result)]

/-- The `POST /api/chat/continue` handler of the OpenAI variant (part_002
lines 405-470): first the lazy readiness check (one `initialize()` attempt,
503 on failure), then it cleans the prior messages and submits
`[...cleaned, assistantResponse, ...tool-result messages]` to the
provider.  `assistantResponse` is appended verbatim. -/
def openaiContinue (mcp : MCPState) (initEnv : ConnectEnv)
    (messages : List JsVal) (toolResults : List OAToolResult)
    (assistantResponse : JsVal) (stringify : JsVal → Option String)
    (modelResult : Except String OAMessage) : OAContinueOut :=
  let proceed : MCPState → Nat → OAContinueOut := fun s reconnects =>
    let cleaned := messages.map cleanMsg
    let updated := cleaned ++ [assistantResponse] ++
      toolResults.map (oaToolResultMsg stringify)
    let oaTools := s.getTools.map toOATool
    match modelResult with
    | .error e =>
      { status := 500, error := some e, response := none,
        needsToolResponse := none, modelCalled := true,
        submitted := some updated, submittedTools := some oaTools,
        reconnectAttempts := reconnects }
    | .ok msg =>
      { status := 200, error := none, response := some msg,
        needsToolResponse := msg.tool_calls.map (fun l => l.length > 0),
        modelCalled := true, submitted := some updated,
        submittedTools := some oaTools, reconnectAttempts := reconnects }
  if mcp.isReady then proceed mcp 0
  else
    let attempt := mcp.initClient initEnv
    if attempt.2 then proceed attempt.1 1
    else
      { status := 503, error := some "MCP client failed to connect",
        response := none, needsToolResponse := none, modelCalled := false,
        submitted := none, submittedTools := none, reconnectAttempts := 1 }

/-! ## The chat database module (src/unnamed/part_000)

The supabase row store is embedded as explicit row lists.  Supabase / PostgREST
semantics used by the module: a filtered `update`/`delete` touching no rows is
*not* an error (it returns an empty `data` and a `null` error); `.single()`
errors unless the filtered result has exactly one row.  Infrastructure
failures (network, constraint violations) are not modelled — every query
resolves. -/

/-- A row of the `chats` table. -/
structure ChatRow where
  id : String
  user_id : String
  title : String
  created_at : Nat
deriving DecidableEq, Inhabited

/-- A row of the `messages` table. -/
structure MessageRow where
  chat_id : String
  role : String
  content : String
  created_at : Nat
deriving DecidableEq, Inhabited

/-- The chat store. -/
structure ChatDB where
  chats : List ChatRow
  messages : List MessageRow
deriving DecidableEq, Inhabited

/-- The result object the module's functions resolve with: `success` plus
whichever of `error` / `chat` / `messages` / `message` the function sets. -/
structure DbResult where
  success : Bool
  error : Option String
  chat : Option ChatRow
  messages : Option (List MessageRow)
  message : Option MessageRow
deriving DecidableEq, Inhabited

/-- `{ success: false, error: msg }`. -/
def dbFail (msg : String) : DbResult :=
  { success := false, error := some msg, chat := none, messages := none,
    message := none }

/-- `supabase.from('chats').select(...).eq('id', chatId).eq('user_id',
userId).single()` — the ownership lookup used by the guarded operations. -/
def selectSingleChat (db : ChatDB) (chatId userId : String) : Option ChatRow :=
  match db.chats.filter (fun c => c.id == chatId && c.user_id == userId) with
  | [c] => some c
  | _ => none

/-- `getChatWithMessages(chatId, userId)` (part_000 lines 47-76): verifies
ownership via the filtered `.single()` select, then returns the chat's
messages ordered by `created_at` ascending.  Reads only. -/
def getChatWithMessages (db : ChatDB) (chatId userId : String) : DbResult :=
  match selectSingleChat db chatId userId with
  | none => dbFail "Chat not found"
  | some c =>
    let msgs := (db.messages.filter (fun m => m.chat_id == chatId)).mergeSort
      (fun a b => a.created_at ≤ b.created_at)
    { success := true, error := none, chat := some c, messages := some msgs,
      message := none }

/-- `addMessageToChat(chatId, role, content, userId)` (part_000 lines
79-114): verifies ownership, then inserts the message row (`now` is the
`new Date().toISOString()` timestamp). -/
def addMessageToChat (db : ChatDB) (chatId role content userId : String)
    (now : Nat) : ChatDB × DbResult :=
  match selectSingleChat db chatId userId with
  | none => (db, dbFail "Chat not found")
  | some _ =>
    let row : MessageRow :=
      { chat_id := chatId, role := role, content := content, created_at := now }
    ({ db with messages := db.messages ++ [row] },
     { success := true, error := none, chat := none, messages := none,
       message := some row })

/-- `updateChatTitle(chatId, title, userId)` (part_000 lines 117-134): a
filtered update with *no* ownership pre-check; the returned `data` holds
the updated rows, and `data[0]` is `undefined` when nothing matched —
yet `success: true` is still returned. -/
def updateChatTitle (db : ChatDB) (chatId title userId : String) :
    ChatDB × DbResult :=
  let hit := fun (c : ChatRow) => c.id == chatId && c.user_id == userId
  let updated := db.chats.map (fun c => if hit c then { c with title := title } else c)
  let data := (db.chats.filter hit).map (fun c => { c with title := title })
  ({ db with chats := updated },
   { success := true, error := none, chat := data.head?, messages := none,
     message := none })

/-- `deleteChat(chatId, userId)` (part_000 lines 137-175): verifies
ownership, then deletes the chat's messages (filtered by `chat_id` only)
and then the chat row (filtered by `id` only). -/
def deleteChat (db : ChatDB) (chatId userId : String) : ChatDB × DbResult :=
  match selectSingleChat db chatId userId with
  | none => (db, dbFail "Chat not found")
  | some _ =>
    ({ chats := db.chats.filter (fun c => !(c.id == chatId)),
       messages := db.messages.filter (fun m => !(m.chat_id == chatId)) },
     { success := true, error := none, chat := none, messages := none,
       message := none })

/-! ## Helper lemmas -/

theorem initClient_fail (s : MCPState) (env : ConnectEnv)
    (h : connSuccess env = false) :
    (s.initClient env).1 = { s with isConnected := false } ∧
    (s.initClient env).2 = false := by
  unfold MCPState.initClient
  unfold connSuccess at h
  cases hc : env.connectOk with
  | false => simp [hc]
  | true =>
    cases hl : env.listToolsResult with
    | none => simp [hc, hl]
    | some ts => simp [hc, hl] at h

theorem runInits_all_fail (envs : List ConnectEnv) : ∀ s : MCPState,
    (∀ e ∈ envs, connSuccess e = false) → s.isConnected = false →
    runInits s envs = s := by
  induction envs with
  | nil => intro s _ _; rfl
  | cons e es ih =>
    intro s hall hs
    have he := hall e (List.mem_cons_self e es)
    have hstep := (initClient_fail s e he).1
    have hse : ({ s with isConnected := false } : MCPState) = s := by
      cases s; simp_all
    unfold runInits
    rw [hstep, hse]
    exact ih s (fun x hx => hall x (List.mem_cons_of_mem e hx)) hs

/-! ## Claim theorems -/

/-- Claim C7 (confirmed): the Tool Endpoint Client's lifecycle invariant.
`isReady()` is `false` in the constructor state; after any sequence of
`initialize()` calls, `isReady() = true` implies some call in the sequence
successfully connected and fetched the tool list; while no call has
succeeded, the cached tool list returned by `getTools()` stays empty; and a
failed `initialize()` leaves the state disconnected and returns `false`
(the embedded function is total — the catch block never rethrows). -/
theorem c7_lifecycle_invariant :
    MCPState.start.isReady = false ∧
    (∀ envs : List ConnectEnv, (runInits MCPState.start envs).isReady = true →
      ∃ e ∈ envs, connSuccess e = true) ∧
    (∀ envs : List ConnectEnv, (∀ e ∈ envs, connSuccess e = false) →
      (runInits MCPState.start envs).getTools = []) ∧
    (∀ (s : MCPState) (env : ConnectEnv), connSuccess env = false →
      (s.initClient env).1.isReady = false ∧ (s.initClient env).2 = false) := by
  refine ⟨rfl, ?_, ?_, ?_⟩
  · intro envs hconn
    by_contra hno
    push_neg at hno
    have hall : ∀ e ∈ envs, connSuccess e = false := by
      intro e he
      have := hno e he
      simpa using this
    rw [runInits_all_fail envs MCPState.start hall rfl] at hconn
    exact absurd hconn (by simp [MCPState.start, MCPState.isReady])
  · intro envs hall
    rw [runInits_all_fail envs MCPState.start hall rfl]
    rfl
  · intro s env h
    refine ⟨?_, (initClient_fail s env h).2⟩
    rw [(initClient_fail s env h).1]
    rfl

/-- Witness for C7 at concrete inputs: a successful connect environment and
a failing one. -/
theorem c7_lifecycle_invariant_witness :
    (∃ e ∈ [ConnectEnv.mk true (some [])], connSuccess e = true) ∧
    (runInits MCPState.start [ConnectEnv.mk false none]).getTools = [] ∧
    ((MCPState.start.initClient (ConnectEnv.mk false none)).1.isReady = false ∧
     (MCPState.start.initClient (ConnectEnv.mk false none)).2 = false) := by
  refine ⟨c7_lifecycle_invariant.2.1 [ConnectEnv.mk true (some [])] rfl,
    c7_lifecycle_invariant.2.2.1 [ConnectEnv.mk false none] ?_,
    c7_lifecycle_invariant.2.2.2 MCPState.start (ConnectEnv.mk false none) rfl⟩
  intro e he
  rw [List.mem_singleton] at he
  subst he
  rfl

/-- Claim C8 (confirmed): while no `initialize()` call has succeeded
(`isReady()` false), `callTool` fails with the `'MCP client not connected'`
error and never contacts the remote service; once connected it forwards the
call and returns the remote outcome — raw result or remote error —
unmodified. -/
theorem c8_callTool_gate :
    (∀ (envs : List ConnectEnv) (remote : Except String JsVal),
      (∀ e ∈ envs, connSuccess e = false) →
      (runInits MCPState.start envs).callTool remote =
        (Except.error "MCP client not connected", false)) ∧
    (∀ (s : MCPState) (remote : Except String JsVal), s.isReady = true →
      s.callTool remote = (remote, true)) := by
  constructor
  · intro envs remote hall
    rw [runInits_all_fail envs MCPState.start hall rfl]
    rfl
  · intro s remote h
    unfold MCPState.callTool
    rw [show s.isConnected = true from h]
    rfl

/-- Witness for C8 at concrete inputs: a never-connected trace and a
connected state. -/
theorem c8_callTool_gate_witness :
    (runInits MCPState.start [ConnectEnv.mk false none]).callTool
        (Except.ok (JsVal.num 1)) =
      (Except.error "MCP client not connected", false) ∧
    (MCPState.mk true []).callTool (Except.ok (JsVal.num 1)) =
      (Except.ok (JsVal.num 1), true) := by
  refine ⟨c8_callTool_gate.1 [ConnectEnv.mk false none] (Except.ok (JsVal.num 1)) ?_,
    c8_callTool_gate.2 (MCPState.mk true []) (Except.ok (JsVal.num 1)) rfl⟩
  intro e he
  rw [List.mem_singleton] at he
  subst he
  rfl

/-- Claim C1, counterexample: with `messages = []` the validation
`!messages || !Array.isArray(messages)` does *not* fire (an empty array is
truthy and is an array), so the relay does not return the 400
`'Messages array is required'` failure and the Model Gateway *is* invoked
(here the Anthropic-variant handler in a connected state: the request
reaches the provider and returns 200). -/
theorem c1_empty_messages_counterexample :
    (anthropicChat (MCPState.mk true []) (JsVal.arr [])
        (Except.ok (AnthropicResponse.mk "end_turn" []))
        (fun _ => Except.ok JsVal.null)).status = 200 ∧
    (anthropicChat (MCPState.mk true []) (JsVal.arr [])
        (Except.ok (AnthropicResponse.mk "end_turn" []))
        (fun _ => Except.ok JsVal.null)).modelCalled = true ∧
    ¬ (anthropicChat (MCPState.mk true []) (JsVal.arr [])
        (Except.ok (AnthropicResponse.mk "end_turn" []))
        (fun _ => Except.ok JsVal.null)).status = 400 := by
  refine ⟨rfl, rfl, by decide⟩

/-- Claim C1 as amended: a chat request whose `messages` field is missing
(falsy) or not an array fails with the 400 `'Messages array is required'`
error before the Model Gateway is invoked, in both server variants; an
*empty* messages array, however, passes this validation, and in a connected
state the Model Gateway is contacted for it (no fail-fast on `[]`). -/
theorem c1_messages_validation :
    (∀ (mcp : MCPState) (j : JsVal) (model : Except String AnthropicResponse)
      (exec : Nat → Except String JsVal),
      truthy j = false ∨ isArray j = false →
      anthropicChat mcp j model exec =
        anthropicFail 400 "Messages array is required") ∧
    (∀ (mcp : MCPState) (env : ConnectEnv) (j : JsVal)
      (model : Except String OAMessage) (parse : String → Except String JsVal)
      (exec : Nat → Except String JsVal),
      truthy j = false ∨ isArray j = false →
      openaiChat mcp env j model parse exec =
        oaFail 400 "Messages array is required" 0) ∧
    (∀ (mcp : MCPState) (model : Except String AnthropicResponse)
      (exec : Nat → Except String JsVal), mcp.isReady = true →
      (anthropicChat mcp (JsVal.arr []) model exec).status ≠ 400 ∧
      (anthropicChat mcp (JsVal.arr []) model exec).modelCalled = true) ∧
    (∀ (mcp : MCPState) (env : ConnectEnv) (model : Except String OAMessage)
      (parse : String → Except String JsVal)
      (exec : Nat → Except String JsVal), mcp.isReady = true →
      (openaiChat mcp env (JsVal.arr []) model parse exec).status ≠ 400 ∧
      (openaiChat mcp env (JsVal.arr []) model parse exec).modelCalled = true) := by
  refine ⟨?_, ?_, ?_, ?_⟩
  · intro mcp j model exec h
    unfold anthropicChat
    rcases h with h | h <;> simp [h]
  · intro mcp env j model parse exec h
    unfold openaiChat
    rcases h with h | h <;> simp [h]
  · intro mcp model exec h
    unfold anthropicChat
    simp only [truthy, isArray, Bool.not_true, Bool.or_self, Bool.false_eq_true,
      if_false, h, if_true]
    cases model with
    | error e => simp [anthropicFail]
    | ok resp =>
      by_cases hs : resp.stop_reason = "tool_use" <;> simp [hs]
  · intro mcp env model parse exec h
    unfold openaiChat
    simp only [truthy, isArray, Bool.not_true, Bool.or_self, Bool.false_eq_true,
      if_false, h, if_true]
    unfold openaiChatReady
    cases model with
    | error e => simp [oaFail]
    | ok msg =>
      cases hm : msg.tool_calls with
      | none => simp [hm]
      | some calls =>
        by_cases hl : calls.length > 0
        · simp only [hm]
          rw [if_pos hl]
          cases hr : (oaToolLoop mcp parse exec calls 0).1 with
          | ok entries => simp [hr]
          | error e => simp [hr, oaFail]
        · simp [hm, hl]

/-- Witness for the amended C1 at concrete inputs: a missing field and a
non-array field are rejected by both handlers, and the empty array proceeds
in a connected state. -/
theorem c1_messages_validation_witness :
    anthropicChat MCPState.start JsVal.undefined
        (Except.ok (AnthropicResponse.mk "end_turn" []))
        (fun _ => Except.ok JsVal.null) =
      anthropicFail 400 "Messages array is required" ∧
    openaiChat MCPState.start (ConnectEnv.mk false none) (JsVal.str "nope")
        (Except.ok (OAMessage.mk "assistant" JsVal.null none))
        (fun _ => Except.error "bad") (fun _ => Except.ok JsVal.null) =
      oaFail 400 "Messages array is required" 0 ∧
    ((openaiChat (MCPState.mk true []) (ConnectEnv.mk false none) (JsVal.arr [])
        (Except.ok (OAMessage.mk "assistant" JsVal.null none))
        (fun _ => Except.error "bad") (fun _ => Except.ok JsVal.null)).status ≠ 400 ∧
     (openaiChat (MCPState.mk true []) (ConnectEnv.mk false none) (JsVal.arr [])
        (Except.ok (OAMessage.mk "assistant" JsVal.null none))
        (fun _ => Except.error "bad") (fun _ => Except.ok JsVal.null)).modelCalled = true) :=
  ⟨c1_messages_validation.1 MCPState.start JsVal.undefined
      (Except.ok (AnthropicResponse.mk "end_turn" []))
      (fun _ => Except.ok JsVal.null) (Or.inl rfl),
   c1_messages_validation.2.1 MCPState.start (ConnectEnv.mk false none)
      (JsVal.str "nope")
      (Except.ok (OAMessage.mk "assistant" JsVal.null none))
      (fun _ => Except.error "bad") (fun _ => Except.ok JsVal.null) (Or.inr rfl),
   c1_messages_validation.2.2.2 (MCPState.mk true []) (ConnectEnv.mk false none)
      (Except.ok (OAMessage.mk "assistant" JsVal.null none))
      (fun _ => Except.error "bad") (fun _ => Except.ok JsVal.null) rfl⟩

theorem initClient_snd (s : MCPState) (env : ConnectEnv) :
    (s.initClient env).2 = connSuccess env := by
  unfold MCPState.initClient connSuccess
  cases hc : env.connectOk with
  | false => simp [hc]
  | true => cases hl : env.listToolsResult <;> simp [hc, hl]

theorem openaiChatReady_fields (mcp : MCPState) (r : Nat) (messages : JsVal)
    (model : Except String OAMessage) (parse : String → Except String JsVal)
    (exec : Nat → Except String JsVal) :
    (openaiChatReady mcp r messages model parse exec).modelCalled = true ∧
    (openaiChatReady mcp r messages model parse exec).reconnectAttempts = r ∧
    ((openaiChatReady mcp r messages model parse exec).status = 200 ∨
     (openaiChatReady mcp r messages model parse exec).status = 500) := by
  unfold openaiChatReady
  cases model with
  | error e => simp [oaFail]
  | ok msg =>
    cases hm : msg.tool_calls with
    | none => simp [hm]
    | some calls =>
      by_cases hl : calls.length > 0
      · simp only [hm]
        rw [if_pos hl]
        cases hr : (oaToolLoop mcp parse exec calls 0).1 with
        | ok entries => simp [hr]
        | error e => simp [hr, oaFail]
      · simp [hm, hl]

/-- Claim C4, counterexample: the Anthropic-variant chat handler, on a
well-formed request in a not-ready state, fails immediately with 503 and
makes *zero* lazy reconnect attempts — contradicting the claim that every
such request gets exactly one reconnect attempt before any 503. -/
theorem c4_no_reconnect_counterexample :
    (anthropicChat MCPState.start
        (JsVal.arr [JsVal.obj [("role", JsVal.str "user"),
                               ("content", JsVal.str "hi")]])
        (Except.ok (AnthropicResponse.mk "end_turn" []))
        (fun _ => Except.ok JsVal.null)).status = 503 ∧
    (anthropicChat MCPState.start
        (JsVal.arr [JsVal.obj [("role", JsVal.str "user"),
                               ("content", JsVal.str "hi")]])
        (Except.ok (AnthropicResponse.mk "end_turn" []))
        (fun _ => Except.ok JsVal.null)).reconnectAttempts = 0 ∧
    ¬ (anthropicChat MCPState.start
        (JsVal.arr [JsVal.obj [("role", JsVal.str "user"),
                               ("content", JsVal.str "hi")]])
        (Except.ok (AnthropicResponse.mk "end_turn" []))
        (fun _ => Except.ok JsVal.null)).reconnectAttempts = 1 := by
  refine ⟨rfl, rfl, by decide⟩

/-- Claim C4 as amended: in the OpenAI-variant chat handler, a well-formed
request arriving while the Tool Endpoint Client is not ready triggers
exactly one lazy reconnect attempt; if that attempt fails the whole request
fails with 503 (`'MCP client failed to connect'`) and no partial answer —
no response, no tool results, no provider contact; if it succeeds the
request proceeds (the provider is contacted and the status is never 503).
The Anthropic-variant chat handler instead makes no reconnect attempt and
fails such a request immediately with 503 (`'MCP client not connected'`). -/
theorem c4_lazy_reconnect :
    (∀ (mcp : MCPState) (env : ConnectEnv) (j : JsVal)
      (model : Except String OAMessage) (parse : String → Except String JsVal)
      (exec : Nat → Except String JsVal),
      mcp.isReady = false → truthy j = true → isArray j = true →
      (openaiChat mcp env j model parse exec).reconnectAttempts = 1 ∧
      (connSuccess env = false →
        openaiChat mcp env j model parse exec =
          oaFail 503 "MCP client failed to connect" 1) ∧
      (connSuccess env = true →
        (openaiChat mcp env j model parse exec).modelCalled = true ∧
        (openaiChat mcp env j model parse exec).status ≠ 503)) ∧
    (∀ (mcp : MCPState) (j : JsVal) (model : Except String AnthropicResponse)
      (exec : Nat → Except String JsVal),
      mcp.isReady = false → truthy j = true → isArray j = true →
      anthropicChat mcp j model exec =
        anthropicFail 503 "MCP client not connected") := by
  constructor
  · intro mcp env j model parse exec hnr ht ha
    have hsnd := initClient_snd mcp env
    unfold openaiChat
    simp only [ht, ha, Bool.not_true, Bool.or_self, Bool.false_eq_true,
      if_false, hnr]
    cases h2 : (mcp.initClient env).2 with
    | true =>
      simp only [if_true]
      have hf := openaiChatReady_fields (mcp.initClient env).1 1 j model parse exec
      refine ⟨hf.2.1, ?_, ?_⟩
      · intro hfalse
        rw [h2, hfalse] at hsnd
        cases hsnd
      · intro _
        refine ⟨hf.1, ?_⟩
        rcases hf.2.2 with hs | hs <;> rw [hs] <;> omega
    | false =>
      simp only [Bool.false_eq_true, if_false]
      refine ⟨rfl, fun _ => trivial, fun hc => ?_⟩
      rw [h2, hc] at hsnd
      cases hsnd
  · intro mcp j model exec hnr ht ha
    unfold anthropicChat
    simp [ht, ha, hnr]

/-- Witness for the amended C4 at concrete inputs: a failing and a
succeeding reconnect for the OpenAI handler, and the immediate 503 of the
Anthropic handler. -/
theorem c4_lazy_reconnect_witness :
    (openaiChat MCPState.start (ConnectEnv.mk false none)
        (JsVal.arr [JsVal.str "m"])
        (Except.ok (OAMessage.mk "assistant" JsVal.null none))
        (fun _ => Except.error "e") (fun _ => Except.ok JsVal.null)).reconnectAttempts = 1 ∧
    openaiChat MCPState.start (ConnectEnv.mk false none)
        (JsVal.arr [JsVal.str "m"])
        (Except.ok (OAMessage.mk "assistant" JsVal.null none))
        (fun _ => Except.error "e") (fun _ => Except.ok JsVal.null) =
      oaFail 503 "MCP client failed to connect" 1 ∧
    ((openaiChat MCPState.start (ConnectEnv.mk true (some []))
        (JsVal.arr [JsVal.str "m"])
        (Except.ok (OAMessage.mk "assistant" JsVal.null none))
        (fun _ => Except.error "e") (fun _ => Except.ok JsVal.null)).modelCalled = true ∧
     (openaiChat MCPState.start (ConnectEnv.mk true (some []))
        (JsVal.arr [JsVal.str "m"])
        (Except.ok (OAMessage.mk "assistant" JsVal.null none))
        (fun _ => Except.error "e") (fun _ => Except.ok JsVal.null)).status ≠ 503) ∧
    anthropicChat MCPState.start (JsVal.arr [JsVal.str "m"])
        (Except.ok (AnthropicResponse.mk "end_turn" []))
        (fun _ => Except.ok JsVal.null) =
      anthropicFail 503 "MCP client not connected" :=
  ⟨(c4_lazy_reconnect.1 MCPState.start (ConnectEnv.mk false none)
      (JsVal.arr [JsVal.str "m"])
      (Except.ok (OAMessage.mk "assistant" JsVal.null none))
      (fun _ => Except.error "e") (fun _ => Except.ok JsVal.null)
      rfl rfl rfl).1,
   (c4_lazy_reconnect.1 MCPState.start (ConnectEnv.mk false none)
      (JsVal.arr [JsVal.str "m"])
      (Except.ok (OAMessage.mk "assistant" JsVal.null none))
      (fun _ => Except.error "e") (fun _ => Except.ok JsVal.null)
      rfl rfl rfl).2.1 rfl,
   (c4_lazy_reconnect.1 MCPState.start (ConnectEnv.mk true (some []))
      (JsVal.arr [JsVal.str "m"])
      (Except.ok (OAMessage.mk "assistant" JsVal.null none))
      (fun _ => Except.error "e") (fun _ => Except.ok JsVal.null)
      rfl rfl rfl).2.2 rfl,
   c4_lazy_reconnect.2 MCPState.start (JsVal.arr [JsVal.str "m"])
      (Except.ok (AnthropicResponse.mk "end_turn" []))
      (fun _ => Except.ok JsVal.null) rfl rfl rfl⟩

/-- Claim C6 (confirmed): whenever the model returns a final (non-tool-use)
answer, the relay's output carries `needsToolResponse = false` and no
`toolResults` field.  For the Anthropic variant a final answer is a
response with `stop_reason ≠ 'tool_use'`; for the OpenAI variant it is a
message whose `tool_calls` is absent or empty (the post-readiness body
covers both the already-connected and the freshly-reconnected path). -/
theorem c6_final_answer_shape :
    (∀ (mcp : MCPState) (msgs : List JsVal) (resp : AnthropicResponse)
      (exec : Nat → Except String JsVal),
      mcp.isReady = true → resp.stop_reason ≠ "tool_use" →
      (anthropicChat mcp (JsVal.arr msgs) (Except.ok resp) exec).status = 200 ∧
      (anthropicChat mcp (JsVal.arr msgs) (Except.ok resp) exec).response = some resp ∧
      (anthropicChat mcp (JsVal.arr msgs) (Except.ok resp) exec).needsToolResponse = some false ∧
      (anthropicChat mcp (JsVal.arr msgs) (Except.ok resp) exec).toolResults = none) ∧
    (∀ (mcp : MCPState) (r : Nat) (msgs : List JsVal) (msg : OAMessage)
      (parse : String → Except String JsVal) (exec : Nat → Except String JsVal),
      (msg.tool_calls = none ∨ msg.tool_calls = some []) →
      (openaiChatReady mcp r (JsVal.arr msgs) (Except.ok msg) parse exec).status = 200 ∧
      (openaiChatReady mcp r (JsVal.arr msgs) (Except.ok msg) parse exec).response = some msg ∧
      (openaiChatReady mcp r (JsVal.arr msgs) (Except.ok msg) parse exec).needsToolResponse = some false ∧
      (openaiChatReady mcp r (JsVal.arr msgs) (Except.ok msg) parse exec).toolResults = none) := by
  constructor
  · intro mcp msgs resp exec hconn hstop
    unfold anthropicChat
    simp [truthy, isArray, hconn, hstop]
  · intro mcp r msgs msg parse exec hfinal
    unfold openaiChatReady
    rcases hfinal with h | h <;> simp [h]

/-- Witness for C6 at concrete inputs: an `end_turn` Anthropic response and
an OpenAI message without tool calls. -/
theorem c6_final_answer_shape_witness :
    ((anthropicChat (MCPState.mk true []) (JsVal.arr [])
        (Except.ok (AnthropicResponse.mk "end_turn" [ContentBlock.text "hi"]))
        (fun _ => Except.ok JsVal.null)).needsToolResponse = some false ∧
     (anthropicChat (MCPState.mk true []) (JsVal.arr [])
        (Except.ok (AnthropicResponse.mk "end_turn" [ContentBlock.text "hi"]))
        (fun _ => Except.ok JsVal.null)).toolResults = none) ∧
    ((openaiChatReady (MCPState.mk true []) 0 (JsVal.arr [])
        (Except.ok (OAMessage.mk "assistant" (JsVal.str "hi") none))
        (fun _ => Except.error "bad") (fun _ => Except.ok JsVal.null)).needsToolResponse = some false ∧
     (openaiChatReady (MCPState.mk true []) 0 (JsVal.arr [])
        (Except.ok (OAMessage.mk "assistant" (JsVal.str "hi") none))
        (fun _ => Except.error "bad") (fun _ => Except.ok JsVal.null)).toolResults = none) := by
  have ha := c6_final_answer_shape.1 (MCPState.mk true []) []
    (AnthropicResponse.mk "end_turn" [ContentBlock.text "hi"])
    (fun _ => Except.ok JsVal.null) rfl (by decide)
  have hb := c6_final_answer_shape.2 (MCPState.mk true []) 0 []
    (OAMessage.mk "assistant" (JsVal.str "hi") none)
    (fun _ => Except.error "bad") (fun _ => Except.ok JsVal.null) (Or.inl rfl)
  exact ⟨⟨ha.2.2.1, ha.2.2.2⟩, ⟨hb.2.2.1, hb.2.2.2⟩⟩

theorem anthropicToolLoop_eq (mcp : MCPState) (exec : Nat → Except String JsVal)
    (hconn : mcp.isConnected = true) : ∀ (blocks : List ContentBlock) (k : Nat),
    anthropicToolLoop mcp exec blocks k =
      (mapFrom (fun i c => mkAnthropicEntry c (exec i)) k (anthropicCalls blocks),
       (anthropicCalls blocks).map (fun c => (c.name, c.input))) := by
  intro blocks
  induction blocks with
  | nil => intro k; rfl
  | cons b rest ih =>
    intro k
    cases b with
    | text t =>
      simp only [anthropicToolLoop, anthropicCalls, List.filterMap_cons, toolUseOf]
      exact ih k
    | toolUse id name input =>
      simp only [anthropicToolLoop, anthropicCalls, List.filterMap_cons, toolUseOf,
        MCPState.callTool, hconn, if_true, mapFrom, List.map_cons]
      rw [show anthropicCalls rest = rest.filterMap toolUseOf from rfl] at ih
      rw [ih (k + 1)]
      simp

theorem oaToolLoop_ok (mcp : MCPState) (parse : String → Except String JsVal)
    (exec : Nat → Except String JsVal) (hconn : mcp.isConnected = true) :
    ∀ (calls : List OAToolCall) (k : Nat),
    (∀ c ∈ calls, (parse c.function.arguments).isOk = true) →
    oaToolLoop mcp parse exec calls k =
      (Except.ok (mapFrom (fun i c => mkOAEntry c (parsedArgs parse c) (exec i)) k calls),
       calls.map (fun c => (c.function.name, parsedArgs parse c))) := by
  intro calls
  induction calls with
  | nil => intro k _; rfl
  | cons c rest ih =>
    intro k hall
    have hc := hall c (List.mem_cons_self c rest)
    obtain ⟨a, ha⟩ : ∃ a, parse c.function.arguments = Except.ok a := by
      cases hp : parse c.function.arguments with
      | ok a => exact ⟨a, rfl⟩
      | error e => rw [hp] at hc; cases hc
    have hrest : ∀ x ∈ rest, (parse x.function.arguments).isOk = true :=
      fun x hx => hall x (List.mem_cons_of_mem c hx)
    have hargs : parsedArgs parse c = a := by
      unfold parsedArgs
      rw [ha]
    simp only [oaToolLoop, ha, MCPState.callTool, hconn, if_true, mapFrom,
      List.map_cons, ih (k + 1) hrest, hargs]
    simp [Except.map]

theorem oaToolLoop_escape (mcp : MCPState) (parse : String → Except String JsVal)
    (exec : Nat → Except String JsVal) (hconn : mcp.isConnected = true) :
    ∀ (pre : List OAToolCall) (c : OAToolCall) (post : List OAToolCall)
      (k : Nat) (pe : String),
    (∀ x ∈ pre, (parse x.function.arguments).isOk = true) →
    parse c.function.arguments = Except.error pe →
    oaToolLoop mcp parse exec (pre ++ c :: post) k =
      (Except.error pe,
       pre.map (fun x => (x.function.name, parsedArgs parse x))) := by
  intro pre
  induction pre with
  | nil =>
    intro c post k pe _ hbad
    simp only [List.nil_append, oaToolLoop, hbad, List.map_nil]
  | cons x rest ih =>
    intro c post k pe hall hbad
    have hx := hall x (List.mem_cons_self x rest)
    obtain ⟨a, ha⟩ : ∃ a, parse x.function.arguments = Except.ok a := by
      cases hp : parse x.function.arguments with
      | ok a => exact ⟨a, rfl⟩
      | error e => rw [hp] at hx; cases hx
    have hrest : ∀ y ∈ rest, (parse y.function.arguments).isOk = true :=
      fun y hy => hall y (List.mem_cons_of_mem x hy)
    have hargs : parsedArgs parse x = a := by
      unfold parsedArgs
      rw [ha]
    simp only [List.cons_append, oaToolLoop, ha, MCPState.callTool, hconn,
      if_true, List.append_eq]
    rw [ih c post (k + 1) pe hrest hbad]
    simp [Except.map, hargs]

theorem mkAnthropicEntry_id (c : CallReq) (o : Except String JsVal) :
    (mkAnthropicEntry c o).tool_use_id = c.id := by
  cases o <;> rfl

theorem mkOAEntry_id (c : OAToolCall) (a : JsVal) (o : Except String JsVal) :
    (mkOAEntry c a o).tool_call_id = c.id := by
  cases o <;> rfl

/-- Claim C3, counterexample: an OpenAI-variant turn requesting N = 1 tool
call whose `arguments` string does not parse as JSON.  The relay performs
*zero* tool executions, returns no `toolResults` list at all, and fails the
request with 500 — against the claimed exactly-N executions and N-entry
result list. -/
theorem c3_bad_json_counterexample :
    (openaiChat (MCPState.mk true []) (ConnectEnv.mk false none) (JsVal.arr [])
        (Except.ok (OAMessage.mk "assistant" JsVal.null
          (some [OAToolCall.mk "call_1" (OAFunction.mk "search" "\x7b")])))
        (fun _ => Except.error "Unexpected end of JSON input")
        (fun _ => Except.ok JsVal.null)).toolExecs = [] ∧
    (openaiChat (MCPState.mk true []) (ConnectEnv.mk false none) (JsVal.arr [])
        (Except.ok (OAMessage.mk "assistant" JsVal.null
          (some [OAToolCall.mk "call_1" (OAFunction.mk "search" "\x7b")])))
        (fun _ => Except.error "Unexpected end of JSON input")
        (fun _ => Except.ok JsVal.null)).toolResults = none ∧
    (openaiChat (MCPState.mk true []) (ConnectEnv.mk false none) (JsVal.arr [])
        (Except.ok (OAMessage.mk "assistant" JsVal.null
          (some [OAToolCall.mk "call_1" (OAFunction.mk "search" "\x7b")])))
        (fun _ => Except.error "Unexpected end of JSON input")
        (fun _ => Except.ok JsVal.null)).status = 500 := by
  refine ⟨rfl, rfl, rfl⟩

/-- Claim C3 as amended: for every model turn requesting N tool calls the
relay performs exactly N executions via the Tool Endpoint Client, in
emitted order, and the returned `toolResults` list has exactly N entries
whose i-th entry carries the i-th emitted call identifier — unconditionally
in the Anthropic variant, and in the OpenAI variant provided every
requested call's `arguments` string parses as JSON (a non-parsing argument
string instead aborts the request, see the C9 escape). -/
theorem c3_execution_alignment :
    (∀ (mcp : MCPState) (msgs : List JsVal) (resp : AnthropicResponse)
      (exec : Nat → Except String JsVal) (out : AnthropicChatOut),
      mcp.isReady = true → resp.stop_reason = "tool_use" →
      anthropicChat mcp (JsVal.arr msgs) (Except.ok resp) exec = out →
      out.toolExecs = (anthropicCalls resp.content).map (fun c => (c.name, c.input)) ∧
      ∃ l, out.toolResults = some l ∧
        l.length = (anthropicCalls resp.content).length ∧
        ∀ i : Nat, (l[i]?).map AnthropicToolResult.tool_use_id =
          ((anthropicCalls resp.content)[i]?).map CallReq.id) ∧
    (∀ (mcp : MCPState) (r : Nat) (msgs : List JsVal) (msg : OAMessage)
      (parse : String → Except String JsVal) (exec : Nat → Except String JsVal)
      (calls : List OAToolCall) (out : OAChatOut),
      mcp.isConnected = true → msg.tool_calls = some calls → calls ≠ [] →
      (∀ c ∈ calls, (parse c.function.arguments).isOk = true) →
      openaiChatReady mcp r (JsVal.arr msgs) (Except.ok msg) parse exec = out →
      out.toolExecs = calls.map (fun c => (c.function.name, parsedArgs parse c)) ∧
      ∃ l, out.toolResults = some l ∧
        l.length = calls.length ∧
        ∀ i : Nat, (l[i]?).map OAToolResult.tool_call_id =
          ((calls[i]?).map OAToolCall.id)) := by
  constructor
  · intro mcp msgs resp exec out hready hstop hout
    subst hout
    unfold anthropicChat
    simp only [truthy, isArray, Bool.not_true, Bool.or_self, Bool.false_eq_true,
      if_false, hready, Bool.not_true, if_true, hstop, if_pos]
    rw [anthropicToolLoop_eq mcp exec hready resp.content 0]
    refine ⟨rfl, mapFrom (fun i c => mkAnthropicEntry c (exec i)) 0
      (anthropicCalls resp.content), rfl, length_mapFrom _ 0 _, ?_⟩
    intro i
    rw [getElem?_mapFrom]
    cases h : (anthropicCalls resp.content)[i]? with
    | none => rfl
    | some c => simp [mkAnthropicEntry_id]
  · intro mcp r msgs msg parse exec calls out hconn hcalls hne hok hout
    subst hout
    unfold openaiChatReady
    simp only [hcalls]
    have hlen : calls.length > 0 := List.length_pos.mpr hne
    rw [if_pos hlen]
    rw [oaToolLoop_ok mcp parse exec hconn calls 0 hok]
    refine ⟨rfl, mapFrom (fun i c => mkOAEntry c (parsedArgs parse c) (exec i)) 0 calls,
      rfl, length_mapFrom _ 0 _, ?_⟩
    intro i
    rw [getElem?_mapFrom]
    cases h : calls[i]? with
    | none => rfl
    | some c => simp [mkOAEntry_id]

/-- Witness for the amended C3 at concrete inputs: one Anthropic turn with
two tool-use blocks and one OpenAI turn with a parseable call. -/
theorem c3_execution_alignment_witness :
    ((anthropicChat (MCPState.mk true []) (JsVal.arr [])
        (Except.ok (AnthropicResponse.mk "tool_use"
          [ContentBlock.toolUse "t1" "search" (JsVal.str "a"),
           ContentBlock.text "note",
           ContentBlock.toolUse "t2" "fetch" (JsVal.str "b")]))
        (fun _ => Except.ok JsVal.null)).toolExecs =
      [("search", JsVal.str "a"), ("fetch", JsVal.str "b")] ∧
     ∃ l, (anthropicChat (MCPState.mk true []) (JsVal.arr [])
        (Except.ok (AnthropicResponse.mk "tool_use"
          [ContentBlock.toolUse "t1" "search" (JsVal.str "a"),
           ContentBlock.text "note",
           ContentBlock.toolUse "t2" "fetch" (JsVal.str "b")]))
        (fun _ => Except.ok JsVal.null)).toolResults = some l ∧
       l.length = 2 ∧
       ∀ i : Nat, (l[i]?).map AnthropicToolResult.tool_use_id =
         (([CallReq.mk "t1" "search" (JsVal.str "a"),
            CallReq.mk "t2" "fetch" (JsVal.str "b")][i]?).map CallReq.id)) ∧
    ((openaiChatReady (MCPState.mk true []) 0 (JsVal.arr [])
        (Except.ok (OAMessage.mk "assistant" JsVal.null
          (some [OAToolCall.mk "call_1" (OAFunction.mk "search" "null")])))
        (fun _ => Except.ok JsVal.null) (fun _ => Except.ok JsVal.null)).toolExecs =
      [("search", JsVal.null)] ∧
     ∃ l, (openaiChatReady (MCPState.mk true []) 0 (JsVal.arr [])
        (Except.ok (OAMessage.mk "assistant" JsVal.null
          (some [OAToolCall.mk "call_1" (OAFunction.mk "search" "null")])))
        (fun _ => Except.ok JsVal.null) (fun _ => Except.ok JsVal.null)).toolResults = some l ∧
       l.length = 1 ∧
       ∀ i : Nat, (l[i]?).map OAToolResult.tool_call_id =
         (([OAToolCall.mk "call_1" (OAFunction.mk "search" "null")][i]?).map OAToolCall.id)) := by
  constructor
  · exact c3_execution_alignment.1 (MCPState.mk true []) []
      (AnthropicResponse.mk "tool_use"
        [ContentBlock.toolUse "t1" "search" (JsVal.str "a"),
         ContentBlock.text "note",
         ContentBlock.toolUse "t2" "fetch" (JsVal.str "b")])
      (fun _ => Except.ok JsVal.null) _ rfl rfl rfl
  · refine c3_execution_alignment.2 (MCPState.mk true []) 0 []
      (OAMessage.mk "assistant" JsVal.null
        (some [OAToolCall.mk "call_1" (OAFunction.mk "search" "null")]))
      (fun _ => Except.ok JsVal.null) (fun _ => Except.ok JsVal.null)
      [OAToolCall.mk "call_1" (OAFunction.mk "search" "null")] _
      rfl rfl (by simp) ?_ rfl
    intro c hc
    rw [List.mem_singleton] at hc
    subst hc
    rfl

/-- Claim C2, counterexample: an OpenAI-variant turn requesting N = 2 tool
calls where processing the first raises a JSON-parse failure.  The failure
is *not* recorded as an `error`-bearing entry (no `toolResults` at all),
the remaining call is *not* attempted (no executions reach the Tool
Endpoint Client), and the overall request fails with 500 instead of
succeeding with `needsToolResponse = true` — so containment does not hold
for every possible failure raised while handling a single tool call. -/
theorem c2_escape_counterexample :
    (openaiChat (MCPState.mk true []) (ConnectEnv.mk false none) (JsVal.arr [])
        (Except.ok (OAMessage.mk "assistant" JsVal.null
          (some [OAToolCall.mk "c1" (OAFunction.mk "search" "not json"),
                 OAToolCall.mk "c2" (OAFunction.mk "fetch" "null")])))
        (fun s => if s == "null" then Except.ok JsVal.null
                  else Except.error "Unexpected token")
        (fun _ => Except.ok JsVal.null)).status = 500 ∧
    (openaiChat (MCPState.mk true []) (ConnectEnv.mk false none) (JsVal.arr [])
        (Except.ok (OAMessage.mk "assistant" JsVal.null
          (some [OAToolCall.mk "c1" (OAFunction.mk "search" "not json"),
                 OAToolCall.mk "c2" (OAFunction.mk "fetch" "null")])))
        (fun s => if s == "null" then Except.ok JsVal.null
                  else Except.error "Unexpected token")
        (fun _ => Except.ok JsVal.null)).toolResults = none ∧
    (openaiChat (MCPState.mk true []) (ConnectEnv.mk false none) (JsVal.arr [])
        (Except.ok (OAMessage.mk "assistant" JsVal.null
          (some [OAToolCall.mk "c1" (OAFunction.mk "search" "not json"),
                 OAToolCall.mk "c2" (OAFunction.mk "fetch" "null")])))
        (fun s => if s == "null" then Except.ok JsVal.null
                  else Except.error "Unexpected token")
        (fun _ => Except.ok JsVal.null)).toolExecs = [] ∧
    (openaiChat (MCPState.mk true []) (ConnectEnv.mk false none) (JsVal.arr [])
        (Except.ok (OAMessage.mk "assistant" JsVal.null
          (some [OAToolCall.mk "c1" (OAFunction.mk "search" "not json"),
                 OAToolCall.mk "c2" (OAFunction.mk "fetch" "null")])))
        (fun s => if s == "null" then Except.ok JsVal.null
                  else Except.error "Unexpected token")
        (fun _ => Except.ok JsVal.null)).needsToolResponse = none := by
  refine ⟨rfl, rfl, rfl, rfl⟩

/-- Claim C2 as amended: a failure raised by the tool invocation itself
(`mcpClient.callTool`) is contained per call: the failing call is recorded
as an entry carrying an `error` field and no `result`, every other call is
still attempted and a succeeding call's entry keeps its `result` field, and
the request still succeeds with `needsToolResponse = true`.  This is
unconditional in the Anthropic variant; in the OpenAI variant it holds
provided every requested call's `arguments` string parses as JSON — a
JSON-parse failure is re-raised inside the per-call catch handler and is
not contained. -/
theorem c2_failure_containment :
    (∀ (mcp : MCPState) (msgs : List JsVal) (resp : AnthropicResponse)
      (exec : Nat → Except String JsVal) (out : AnthropicChatOut),
      mcp.isReady = true → resp.stop_reason = "tool_use" →
      anthropicChat mcp (JsVal.arr msgs) (Except.ok resp) exec = out →
      out.status = 200 ∧ out.error = none ∧
      out.needsToolResponse = some true ∧
      out.toolExecs.length = (anthropicCalls resp.content).length ∧
      ∃ l, out.toolResults = some l ∧
        l.length = (anthropicCalls resp.content).length ∧
        (∀ (i : Nat) (e : String), i < (anthropicCalls resp.content).length →
          exec i = Except.error e →
          ∃ en, l[i]? = some en ∧ en.error = some e ∧ en.result = none) ∧
        (∀ (i : Nat) (rv : JsVal), i < (anthropicCalls resp.content).length →
          exec i = Except.ok rv →
          ∃ en, l[i]? = some en ∧ en.result = some rv ∧ en.error = none)) ∧
    (∀ (mcp : MCPState) (r : Nat) (msgs : List JsVal) (msg : OAMessage)
      (parse : String → Except String JsVal) (exec : Nat → Except String JsVal)
      (calls : List OAToolCall) (out : OAChatOut),
      mcp.isConnected = true → msg.tool_calls = some calls → calls ≠ [] →
      (∀ c ∈ calls, (parse c.function.arguments).isOk = true) →
      openaiChatReady mcp r (JsVal.arr msgs) (Except.ok msg) parse exec = out →
      out.status = 200 ∧ out.error = none ∧
      out.needsToolResponse = some true ∧
      out.toolExecs.length = calls.length ∧
      ∃ l, out.toolResults = some l ∧
        l.length = calls.length ∧
        (∀ (i : Nat) (e : String), i < calls.length →
          exec i = Except.error e →
          ∃ en, l[i]? = some en ∧ en.error = some e ∧ en.result = none) ∧
        (∀ (i : Nat) (rv : JsVal), i < calls.length →
          exec i = Except.ok rv →
          ∃ en, l[i]? = some en ∧ en.result = some rv ∧ en.error = none)) := by
  constructor
  · intro mcp msgs resp exec out hready hstop hout
    subst hout
    unfold anthropicChat
    simp only [truthy, isArray, Bool.not_true, Bool.or_self, Bool.false_eq_true,
      if_false, hready, if_true, hstop, if_pos]
    rw [anthropicToolLoop_eq mcp exec hready resp.content 0]
    refine ⟨by trivial, by trivial, by trivial, by simp,
      mapFrom (fun i c => mkAnthropicEntry c (exec i)) 0
      (anthropicCalls resp.content), by trivial, length_mapFrom _ 0 _, ?_, ?_⟩
    · intro i e hi he
      rw [getElem?_mapFrom, List.getElem?_eq_getElem hi]
      exact ⟨mkAnthropicEntry (anthropicCalls resp.content)[i] (exec (0 + i)),
        rfl, by simp [Nat.zero_add, he, mkAnthropicEntry],
        by simp [Nat.zero_add, he, mkAnthropicEntry]⟩
    · intro i rv hi hr
      rw [getElem?_mapFrom, List.getElem?_eq_getElem hi]
      exact ⟨mkAnthropicEntry (anthropicCalls resp.content)[i] (exec (0 + i)),
        rfl, by simp [Nat.zero_add, hr, mkAnthropicEntry],
        by simp [Nat.zero_add, hr, mkAnthropicEntry]⟩
  · intro mcp r msgs msg parse exec calls out hconn hcalls hne hok hout
    subst hout
    unfold openaiChatReady
    simp only [hcalls]
    have hlen : calls.length > 0 := List.length_pos.mpr hne
    rw [if_pos hlen]
    rw [oaToolLoop_ok mcp parse exec hconn calls 0 hok]
    refine ⟨by trivial, by trivial, by trivial, by simp,
      mapFrom (fun i c => mkOAEntry c (parsedArgs parse c) (exec i)) 0 calls,
      by trivial, length_mapFrom _ 0 _, ?_, ?_⟩
    · intro i e hi he
      rw [getElem?_mapFrom, List.getElem?_eq_getElem hi]
      exact ⟨mkOAEntry calls[i] (parsedArgs parse calls[i]) (exec (0 + i)),
        rfl, by simp [Nat.zero_add, he, mkOAEntry],
        by simp [Nat.zero_add, he, mkOAEntry]⟩
    · intro i rv hi hr
      rw [getElem?_mapFrom, List.getElem?_eq_getElem hi]
      exact ⟨mkOAEntry calls[i] (parsedArgs parse calls[i]) (exec (0 + i)),
        rfl, by simp [Nat.zero_add, hr, mkOAEntry],
        by simp [Nat.zero_add, hr, mkOAEntry]⟩

/-- Witness for the amended C2 at a concrete input: an Anthropic turn with
two tool calls where the first execution fails and the second succeeds; the
request succeeds, the failing call gets an `error` entry and the succeeding
call keeps its `result` entry. -/
theorem c2_failure_containment_witness :
    (anthropicChat (MCPState.mk true []) (JsVal.arr [])
        (Except.ok (AnthropicResponse.mk "tool_use"
          [ContentBlock.toolUse "t1" "search" JsVal.null,
           ContentBlock.toolUse "t2" "fetch" JsVal.null]))
        (fun n => if n == 0 then Except.error "boom"
                  else Except.ok (JsVal.num 7))).status = 200 ∧
    ∃ l, (anthropicChat (MCPState.mk true []) (JsVal.arr [])
        (Except.ok (AnthropicResponse.mk "tool_use"
          [ContentBlock.toolUse "t1" "search" JsVal.null,
           ContentBlock.toolUse "t2" "fetch" JsVal.null]))
        (fun n => if n == 0 then Except.error "boom"
                  else Except.ok (JsVal.num 7))).toolResults = some l ∧
      (∃ en, l[0]? = some en ∧ en.error = some "boom" ∧ en.result = none) ∧
      (∃ en, l[1]? = some en ∧ en.result = some (JsVal.num 7) ∧ en.error = none) := by
  have h := c2_failure_containment.1 (MCPState.mk true []) []
    (AnthropicResponse.mk "tool_use"
      [ContentBlock.toolUse "t1" "search" JsVal.null,
       ContentBlock.toolUse "t2" "fetch" JsVal.null])
    (fun n => if n == 0 then Except.error "boom" else Except.ok (JsVal.num 7))
    _ rfl rfl rfl
  obtain ⟨h1, _, _, _, l, hl, _, herr, hok⟩ := h
  refine ⟨h1, l, hl, herr 0 "boom" (by decide) rfl, hok 1 (JsVal.num 7) (by decide) rfl⟩

/-- Claim C9 (confirmed): in the OpenAI-variant chat handler, if the model
emits a tool call whose `arguments` string is not valid JSON (all calls
before it parseable), the per-call catch handler re-parses that string and
throws again, so the exception escapes the per-call containment: the whole
request fails with a 500 carrying the parse error, no `toolResults` (hence
no error-bearing entry for that call) and no response are returned, and no
tool call from that turn after the offending one is executed — only the
calls before it reached the Tool Endpoint Client. -/
theorem c9_parse_escape :
    ∀ (mcp : MCPState) (env : ConnectEnv) (msgs : List JsVal) (msg : OAMessage)
      (parse : String → Except String JsVal) (exec : Nat → Except String JsVal)
      (pre post : List OAToolCall) (c : OAToolCall) (pe : String)
      (out : OAChatOut),
      mcp.isReady = true →
      msg.tool_calls = some (pre ++ c :: post) →
      (∀ x ∈ pre, (parse x.function.arguments).isOk = true) →
      parse c.function.arguments = Except.error pe →
      openaiChat mcp env (JsVal.arr msgs) (Except.ok msg) parse exec = out →
      out.status = 500 ∧ out.error = some pe ∧ out.toolResults = none ∧
      out.needsToolResponse = none ∧ out.response = none ∧
      out.toolExecs = pre.map (fun x => (x.function.name, parsedArgs parse x)) := by
  intro mcp env msgs msg parse exec pre post c pe out hready hcalls hpre hbad hout
  subst hout
  unfold openaiChat
  simp only [truthy, isArray, Bool.not_true, Bool.or_self, Bool.false_eq_true,
    if_false, hready, if_true]
  unfold openaiChatReady
  simp only [hcalls]
  rw [if_pos (by simp : (pre ++ c :: post).length > 0)]
  rw [oaToolLoop_escape mcp parse exec hready pre c post 0 pe hpre hbad]
  simp [oaFail]

/-- Witness for C9 at a concrete input: a turn with one parseable call
followed by one call whose arguments do not parse; only the first call is
executed and the request fails with the parse error. -/
theorem c9_parse_escape_witness :
    (openaiChat (MCPState.mk true []) (ConnectEnv.mk false none) (JsVal.arr [])
        (Except.ok (OAMessage.mk "assistant" JsVal.null
          (some [OAToolCall.mk "c1" (OAFunction.mk "search" "null"),
                 OAToolCall.mk "c2" (OAFunction.mk "fetch" "oops")])))
        (fun s => if s == "null" then Except.ok JsVal.null
                  else Except.error "Unexpected token")
        (fun _ => Except.ok JsVal.null)).status = 500 ∧
    (openaiChat (MCPState.mk true []) (ConnectEnv.mk false none) (JsVal.arr [])
        (Except.ok (OAMessage.mk "assistant" JsVal.null
          (some [OAToolCall.mk "c1" (OAFunction.mk "search" "null"),
                 OAToolCall.mk "c2" (OAFunction.mk "fetch" "oops")])))
        (fun s => if s == "null" then Except.ok JsVal.null
                  else Except.error "Unexpected token")
        (fun _ => Except.ok JsVal.null)).error = some "Unexpected token" ∧
    (openaiChat (MCPState.mk true []) (ConnectEnv.mk false none) (JsVal.arr [])
        (Except.ok (OAMessage.mk "assistant" JsVal.null
          (some [OAToolCall.mk "c1" (OAFunction.mk "search" "null"),
                 OAToolCall.mk "c2" (OAFunction.mk "fetch" "oops")])))
        (fun s => if s == "null" then Except.ok JsVal.null
                  else Except.error "Unexpected token")
        (fun _ => Except.ok JsVal.null)).toolResults = none ∧
    (openaiChat (MCPState.mk true []) (ConnectEnv.mk false none) (JsVal.arr [])
        (Except.ok (OAMessage.mk "assistant" JsVal.null
          (some [OAToolCall.mk "c1" (OAFunction.mk "search" "null"),
                 OAToolCall.mk "c2" (OAFunction.mk "fetch" "oops")])))
        (fun s => if s == "null" then Except.ok JsVal.null
                  else Except.error "Unexpected token")
        (fun _ => Except.ok JsVal.null)).toolExecs = [("search", JsVal.null)] := by
  have h := c9_parse_escape (MCPState.mk true []) (ConnectEnv.mk false none) []
    (OAMessage.mk "assistant" JsVal.null
      (some [OAToolCall.mk "c1" (OAFunction.mk "search" "null"),
             OAToolCall.mk "c2" (OAFunction.mk "fetch" "oops")]))
    (fun s => if s == "null" then Except.ok JsVal.null
              else Except.error "Unexpected token")
    (fun _ => Except.ok JsVal.null)
    [OAToolCall.mk "c1" (OAFunction.mk "search" "null")] []
    (OAToolCall.mk "c2" (OAFunction.mk "fetch" "oops")) "Unexpected token"
    _ rfl rfl ?_ rfl rfl
  · exact ⟨h.1, h.2.1, h.2.2.1, h.2.2.2.2.2⟩
  · intro x hx
    rw [List.mem_singleton] at hx
    subst hx
    rfl

/-- Claim C5, counterexample: a ToolCallResult whose `error` field is
present but empty (`error: ""`).  The claim requires an error-bearing
result to be rendered as the text `'Error: <error>'`, i.e. `'Error: '`
here; but the source's JavaScript truthiness test `tr.error ?` treats the
empty string as absent, so the continuation handler renders the JSON
serialisation of the `result` field instead (`'5'`). -/
theorem c5_empty_error_counterexample :
    getField (anthropicToolResultBlock (fun _ => some "5")
        { tool_use_id := "c1", name := "search", input := JsVal.null,
          result := some (JsVal.num 5), error := some "" }) "content" =
      JsVal.str "5" ∧
    ¬ getField (anthropicToolResultBlock (fun _ => some "5")
        { tool_use_id := "c1", name := "search", input := JsVal.null,
          result := some (JsVal.num 5), error := some "" }) "content" =
      JsVal.str ("Error: " ++ "") := by
  refine ⟨rfl, ?_⟩
  intro h
  have h2 : JsVal.str "5" = JsVal.str ("Error: " ++ "") := h
  injection h2 with hs
  exact absurd hs (by decide)

/-- Claim C5 as amended: each continuation entry point submits to the Model
Gateway exactly the conversation
`[cleaned original messages..., assistant tool-request message,
tool-result message(s)]`, with the original messages kept in order and
their role/content values unchanged by cleaning; each appended tool-result
carries its result's call identifier; a result with a *non-empty* `error`
field is rendered as the text `'Error: <error>'`, while a result without an
error field is rendered as the JSON serialisation of its `result` field (an
empty-string `error` is treated as absent by the JavaScript truthiness test
and falls into the serialisation branch).  For the OpenAI variant the
readiness gate must pass for the submission to happen. -/
theorem c5_continuation_conversation :
    (∀ (mcp : MCPState) (messages : List JsVal)
      (toolResults : List AnthropicToolResult) (assistantResponse : JsVal)
      (stringify : JsVal → Option String)
      (modelResult : Except String AnthropicResponse) (out : ContinueOut),
      anthropicContinue mcp messages toolResults assistantResponse stringify
        modelResult = out →
      out.modelCalled = true ∧
      out.submitted = some (messages.map cleanMsg ++
        [anthropicAssistantMsg assistantResponse,
         anthropicToolResultMsg stringify toolResults])) ∧
    (∀ (mcp : MCPState) (env : ConnectEnv) (messages : List JsVal)
      (toolResults : List OAToolResult) (assistantResponse : JsVal)
      (stringify : JsVal → Option String)
      (modelResult : Except String OAMessage) (out : OAContinueOut),
      mcp.isReady = true →
      openaiContinue mcp env messages toolResults assistantResponse stringify
        modelResult = out →
      out.modelCalled = true ∧
      out.submitted = some (messages.map cleanMsg ++ [assistantResponse] ++
        toolResults.map (oaToolResultMsg stringify))) ∧
    (∀ m : JsVal, getField (cleanMsg m) "role" = getField m "role" ∧
      getField (cleanMsg m) "content" = getField m "content") ∧
    (∀ (stringify : JsVal → Option String) (tr : AnthropicToolResult),
      getField (anthropicToolResultBlock stringify tr) "tool_use_id" =
        JsVal.str tr.tool_use_id ∧
      (∀ e, tr.error = some e → e ≠ "" →
        getField (anthropicToolResultBlock stringify tr) "content" =
          JsVal.str ("Error: " ++ e)) ∧
      (∀ rv s, tr.error = none → tr.result = some rv → stringify rv = some s →
        getField (anthropicToolResultBlock stringify tr) "content" =
          JsVal.str s)) ∧
    (∀ (stringify : JsVal → Option String) (tr : OAToolResult),
      getField (oaToolResultMsg stringify tr) "tool_call_id" =
        JsVal.str tr.tool_call_id ∧
      getField (oaToolResultMsg stringify tr) "role" = JsVal.str "tool" ∧
      (∀ e, tr.error = some e → e ≠ "" →
        getField (oaToolResultMsg stringify tr) "content" =
          JsVal.str ("Error: " ++ e)) ∧
      (∀ rv s, tr.error = none → tr.result = some rv → stringify rv = some s →
        getField (oaToolResultMsg stringify tr) "content" = JsVal.str s)) := by
  refine ⟨?_, ?_, ?_, ?_, ?_⟩
  · intro mcp messages toolResults assistantResponse stringify modelResult out hout
    subst hout
    unfold anthropicContinue
    cases modelResult <;> simp
  · intro mcp env messages toolResults assistantResponse stringify modelResult out
      hready hout
    subst hout
    unfold openaiContinue
    rw [hready]
    simp only [if_true]
    cases modelResult <;> simp
  · intro m
    exact ⟨rfl, rfl⟩
  · intro stringify tr
    refine ⟨rfl, ?_, ?_⟩
    · intro e he hne
      have hc : getField (anthropicToolResultBlock stringify tr) "content" =
          renderToolContent stringify tr.error tr.result := rfl
      rw [hc, he]
      unfold renderToolContent
      simp [hne]
    · intro rv s he hr hs
      have hc : getField (anthropicToolResultBlock stringify tr) "content" =
          renderToolContent stringify tr.error tr.result := rfl
      rw [hc, he, hr]
      unfold renderToolContent stringifyVal
      simp [hs]
  · intro stringify tr
    refine ⟨rfl, rfl, ?_, ?_⟩
    · intro e he hne
      have hc : getField (oaToolResultMsg stringify tr) "content" =
          renderToolContent stringify tr.error tr.result := rfl
      rw [hc, he]
      unfold renderToolContent
      simp [hne]
    · intro rv s he hr hs
      have hc : getField (oaToolResultMsg stringify tr) "content" =
          renderToolContent stringify tr.error tr.result := rfl
      rw [hc, he, hr]
      unfold renderToolContent stringifyVal
      simp [hs]

/-- Witness for the amended C5 at concrete inputs: a one-message
conversation continued through both variants, and a non-empty-error result
rendered as `'Error: boom'`. -/
theorem c5_continuation_conversation_witness :
    (anthropicContinue MCPState.start
        [JsVal.obj [("role", JsVal.str "user"), ("content", JsVal.str "q")]]
        [{ tool_use_id := "c1", name := "s", input := JsVal.null,
           result := some (JsVal.num 5), error := none }]
        (JsVal.obj [("content", JsVal.str "use tool")])
        (fun _ => some "5")
        (Except.ok (AnthropicResponse.mk "end_turn" []))).submitted =
      some ([JsVal.obj [("role", JsVal.str "user"),
                        ("content", JsVal.str "q")]].map cleanMsg ++
        [anthropicAssistantMsg (JsVal.obj [("content", JsVal.str "use tool")]),
         anthropicToolResultMsg (fun _ => some "5")
           [{ tool_use_id := "c1", name := "s", input := JsVal.null,
              result := some (JsVal.num 5), error := none }]]) ∧
    (openaiContinue (MCPState.mk true []) (ConnectEnv.mk false none)
        [JsVal.obj [("role", JsVal.str "user"), ("content", JsVal.str "q")]]
        [{ tool_call_id := "c1", name := "s", arguments := JsVal.null,
           result := some (JsVal.num 5), error := none }]
        (JsVal.obj [("role", JsVal.str "assistant")])
        (fun _ => some "5")
        (Except.ok (OAMessage.mk "assistant" JsVal.null none))).submitted =
      some ([JsVal.obj [("role", JsVal.str "user"),
                        ("content", JsVal.str "q")]].map cleanMsg ++
        [JsVal.obj [("role", JsVal.str "assistant")]] ++
        [{ tool_call_id := "c1", name := "s", arguments := JsVal.null,
           result := some (JsVal.num 5),
           error := none : OAToolResult }].map (oaToolResultMsg (fun _ => some "5"))) ∧
    getField (anthropicToolResultBlock (fun _ => some "x")
        { tool_use_id := "c9", name := "s", input := JsVal.null,
          result := none, error := some "boom" }) "content" =
      JsVal.str ("Error: " ++ "boom") := by
  have h1 := (c5_continuation_conversation.1 MCPState.start
    [JsVal.obj [("role", JsVal.str "user"), ("content", JsVal.str "q")]]
    [{ tool_use_id := "c1", name := "s", input := JsVal.null,
       result := some (JsVal.num 5), error := none }]
    (JsVal.obj [("content", JsVal.str "use tool")])
    (fun _ => some "5")
    (Except.ok (AnthropicResponse.mk "end_turn" [])) _ rfl).2
  have h2 := (c5_continuation_conversation.2.1 (MCPState.mk true [])
    (ConnectEnv.mk false none)
    [JsVal.obj [("role", JsVal.str "user"), ("content", JsVal.str "q")]]
    [{ tool_call_id := "c1", name := "s", arguments := JsVal.null,
       result := some (JsVal.num 5), error := none }]
    (JsVal.obj [("role", JsVal.str "assistant")])
    (fun _ => some "5")
    (Except.ok (OAMessage.mk "assistant" JsVal.null none)) _ rfl rfl).2
  have h3 := (c5_continuation_conversation.2.2.2.1 (fun _ => some "x")
    { tool_use_id := "c9", name := "s", input := JsVal.null,
      result := none, error := some "boom" }).2.1 "boom" rfl (by decide)
  exact ⟨h1, h2, h3⟩

/-- Claim C10, counterexample: `updateChatTitle` on a chat owned by another
user.  The store holds one chat `chat1` owned by `alice`; `bob` updates its
title.  No row is modified (the filtered update matches nothing) — but the
function returns `success: true` (with `chat` undefined), not the claimed
`{success: false}`. -/
theorem c10_update_title_counterexample :
    (updateChatTitle
        (ChatDB.mk [ChatRow.mk "chat1" "alice" "T" 0] [])
        "chat1" "New" "bob").2.success = true ∧
    (updateChatTitle
        (ChatDB.mk [ChatRow.mk "chat1" "alice" "T" 0] [])
        "chat1" "New" "bob").2.chat = none ∧
    (updateChatTitle
        (ChatDB.mk [ChatRow.mk "chat1" "alice" "T" 0] [])
        "chat1" "New" "bob").1 =
      ChatDB.mk [ChatRow.mk "chat1" "alice" "T" 0] [] ∧
    ¬ (updateChatTitle
        (ChatDB.mk [ChatRow.mk "chat1" "alice" "T" 0] [])
        "chat1" "New" "bob").2.success = false := by
  refine ⟨rfl, rfl, rfl, by decide⟩

/-- Claim C10 as amended: when no chat row with the target `chatId` belongs
to `userId`, the guarded operations `addMessageToChat` and `deleteChat` and
the read `getChatWithMessages` return `{success: false, error: 'Chat not
found'}` and leave the store untouched; `updateChatTitle`, which has no
ownership pre-check but filters its update by `user_id`, also modifies
nothing but returns `{success: true}` with no `chat` row.  In all cases no
chat or message row belonging to another user is modified. -/
theorem c10_ownership_guard :
    ∀ (db : ChatDB) (chatId userId : String),
      (∀ c ∈ db.chats, ¬(c.id = chatId ∧ c.user_id = userId)) →
      getChatWithMessages db chatId userId = dbFail "Chat not found" ∧
      (∀ role content now,
        addMessageToChat db chatId role content userId now =
          (db, dbFail "Chat not found")) ∧
      deleteChat db chatId userId = (db, dbFail "Chat not found") ∧
      (∀ title, (updateChatTitle db chatId title userId).1 = db ∧
        (updateChatTitle db chatId title userId).2.success = true ∧
        (updateChatTitle db chatId title userId).2.chat = none) := by
  intro db chatId userId hown
  have hfilter : db.chats.filter
      (fun c => c.id == chatId && c.user_id == userId) = [] := by
    rw [List.filter_eq_nil_iff]
    intro c hc
    have := hown c hc
    simp only [Bool.and_eq_true, beq_iff_eq]
    intro hcontra
    exact this hcontra
  have hsel : selectSingleChat db chatId userId = none := by
    unfold selectSingleChat
    rw [hfilter]
  refine ⟨?_, ?_, ?_, ?_⟩
  · unfold getChatWithMessages
    rw [hsel]
  · intro role content now
    unfold addMessageToChat
    rw [hsel]
  · unfold deleteChat
    rw [hsel]
  · intro title
    have hmap : db.chats.map (fun c =>
        if c.id == chatId && c.user_id == userId
        then { c with title := title } else c) = db.chats := by
      have hcongr : ∀ c ∈ db.chats,
          (if c.id == chatId && c.user_id == userId
           then { c with title := title } else c) = c := by
        intro c hc
        rw [if_neg]
        simp only [Bool.and_eq_true, beq_iff_eq]
        intro hcontra
        exact hown c hc hcontra
      rw [List.map_congr_left hcongr]
      exact List.map_id db.chats
    unfold updateChatTitle
    refine ⟨?_, rfl, ?_⟩
    · simp only [hmap]
    · simp only [hfilter, List.map_nil, List.head?_nil]

/-- Witness for the amended C10 at a concrete input: `bob` operating on
`alice`'s chat. -/
theorem c10_ownership_guard_witness :
    getChatWithMessages (ChatDB.mk [ChatRow.mk "chat1" "alice" "T" 0] [])
        "chat1" "bob" = dbFail "Chat not found" ∧
    addMessageToChat (ChatDB.mk [ChatRow.mk "chat1" "alice" "T" 0] [])
        "chat1" "user" "hi" "bob" 3 =
      (ChatDB.mk [ChatRow.mk "chat1" "alice" "T" 0] [],
       dbFail "Chat not found") ∧
    deleteChat (ChatDB.mk [ChatRow.mk "chat1" "alice" "T" 0] []) "chat1" "bob" =
      (ChatDB.mk [ChatRow.mk "chat1" "alice" "T" 0] [],
       dbFail "Chat not found") ∧
    (updateChatTitle (ChatDB.mk [ChatRow.mk "chat1" "alice" "T" 0] [])
        "chat1" "New" "bob").1 =
      ChatDB.mk [ChatRow.mk "chat1" "alice" "T" 0] [] := by
  have h := c10_ownership_guard
    (ChatDB.mk [ChatRow.mk "chat1" "alice" "T" 0] []) "chat1" "bob"
    (by intro c hc; rw [List.mem_singleton] at hc; subst hc; simp)
  exact ⟨h.1, h.2.1 "user" "hi" 3, h.2.2.1, (h.2.2.2 "New").1⟩
